import Mathlib

/-!
Shallow embedding of the tet-rs engine (src/core.rs and src/engine/base.rs).

Conventions of the source kept here:
* The playfield is a 10 x 40 grid of spaces, rows and columns 1-based,
  row 1 at the bottom.  `Playfield::get/set/clear` panic outside
  [1,40] x [1,10]; panics are modelled by `Option` (`none` = panic).
* A piece's bounding box is a 4 x 4 mask whose row 0 is the *bottom*
  row (the `bounding_box!` macro reverses the rows it displays).
* `CurrentPiece` stores the field position of the lower-left corner of
  the bounding box as signed integers (`i8` in the source; modelled by
  `Int`, the claims never reach the i8 overflow range).
-/

namespace TetRs

inductive Space
  | Empty
  | Block
deriving DecidableEq, Repr

/-- A playfield: 40 rows (index 0 = field row 1), each of 10 spaces. -/
abbrev Playfield := List (List Space)

def Playfield.new : Playfield :=
  List.replicate 40 (List.replicate 10 Space.Empty)

/-- `Playfield::get`; `none` models the `check_index` panic. -/
def Playfield.get? (pf : Playfield) (row col : Int) : Option Space :=
  if 1 ≤ row ∧ row ≤ 40 ∧ 1 ≤ col ∧ col ≤ 10 then
    some ((pf.getD (row - 1).toNat []).getD (col - 1).toNat Space.Empty)
  else none

/-- `Playfield::set`; `none` models the `check_index` panic. -/
def Playfield.setCell? (pf : Playfield) (row col : Int) : Option Playfield :=
  if 1 ≤ row ∧ row ≤ 40 ∧ 1 ≤ col ∧ col ≤ 10 then
    some (pf.set (row - 1).toNat
      ((pf.getD (row - 1).toNat []).set (col - 1).toNat Space.Block))
  else none

/-- `Playfield::clear`; `none` models the `check_index` panic. -/
def Playfield.clearCell? (pf : Playfield) (row col : Int) : Option Playfield :=
  if 1 ≤ row ∧ row ≤ 40 ∧ 1 ≤ col ∧ col ≤ 10 then
    some (pf.set (row - 1).toNat
      ((pf.getD (row - 1).toNat []).set (col - 1).toNat Space.Empty))
  else none

inductive Tetromino
  | I
  | O
  | T
  | S
  | Z
  | J
  | L
deriving DecidableEq, Repr, Fintype

inductive Rotation
  | Spawn
  | Clockwise
  | OneEighty
  | CounterClockwise
deriving DecidableEq, Repr, Fintype

def Rotation.cw : Rotation → Rotation
  | .Spawn => .Clockwise
  | .Clockwise => .OneEighty
  | .OneEighty => .CounterClockwise
  | .CounterClockwise => .Spawn

def Rotation.ccw : Rotation → Rotation
  | .Spawn => .CounterClockwise
  | .Clockwise => .Spawn
  | .OneEighty => .Clockwise
  | .CounterClockwise => .OneEighty

structure Piece where
  shape : Tetromino
  rotation : Rotation
deriving DecidableEq, Repr

def sE : Space := Space.Empty
def sB : Space := Space.Block

/-- `Piece::get_bounding_box`.  Row 0 of the result is the *bottom* row of
the 4 x 4 mask, exactly as produced by the source's `bounding_box!` macro
(which reverses the rows it displays).  The O piece matches any rotation. -/
def Piece.getBoundingBox (p : Piece) : List (List Space) :=
  match p.shape, p.rotation with
  | .I, .Spawn =>
      [[sE, sE, sE, sE], [sE, sE, sE, sE], [sB, sB, sB, sB], [sE, sE, sE, sE]]
  | .I, .Clockwise =>
      [[sE, sE, sB, sE], [sE, sE, sB, sE], [sE, sE, sB, sE], [sE, sE, sB, sE]]
  | .I, .OneEighty =>
      [[sE, sE, sE, sE], [sB, sB, sB, sB], [sE, sE, sE, sE], [sE, sE, sE, sE]]
  | .I, .CounterClockwise =>
      [[sE, sB, sE, sE], [sE, sB, sE, sE], [sE, sB, sE, sE], [sE, sB, sE, sE]]
  | .O, _ =>
      [[sE, sE, sE, sE], [sE, sE, sE, sE], [sE, sB, sB, sE], [sE, sB, sB, sE]]
  | .T, .Spawn =>
      [[sE, sE, sE, sE], [sE, sE, sE, sE], [sB, sB, sB, sE], [sE, sB, sE, sE]]
  | .T, .Clockwise =>
      [[sE, sE, sE, sE], [sE, sB, sE, sE], [sE, sB, sB, sE], [sE, sB, sE, sE]]
  | .T, .OneEighty =>
      [[sE, sE, sE, sE], [sE, sB, sE, sE], [sB, sB, sB, sE], [sE, sE, sE, sE]]
  | .T, .CounterClockwise =>
      [[sE, sE, sE, sE], [sE, sB, sE, sE], [sB, sB, sE, sE], [sE, sB, sE, sE]]
  | .S, .Spawn =>
      [[sE, sE, sE, sE], [sE, sE, sE, sE], [sB, sB, sE, sE], [sE, sB, sB, sE]]
  | .S, .Clockwise =>
      [[sE, sE, sE, sE], [sE, sE, sB, sE], [sE, sB, sB, sE], [sE, sB, sE, sE]]
  | .S, .OneEighty =>
      [[sE, sE, sE, sE], [sB, sB, sE, sE], [sE, sB, sB, sE], [sE, sE, sE, sE]]
  | .S, .CounterClockwise =>
      [[sE, sE, sE, sE], [sE, sB, sE, sE], [sB, sB, sE, sE], [sB, sE, sE, sE]]
  | .Z, .Spawn =>
      [[sE, sE, sE, sE], [sE, sE, sE, sE], [sE, sB, sB, sE], [sB, sB, sE, sE]]
  | .Z, .Clockwise =>
      [[sE, sE, sE, sE], [sE, sB, sE, sE], [sE, sB, sB, sE], [sE, sE, sB, sE]]
  | .Z, .OneEighty =>
      [[sE, sE, sE, sE], [sE, sB, sB, sE], [sB, sB, sE, sE], [sE, sE, sE, sE]]
  | .Z, .CounterClockwise =>
      [[sE, sE, sE, sE], [sB, sE, sE, sE], [sB, sB, sE, sE], [sE, sB, sE, sE]]
  | .J, .Spawn =>
      [[sE, sE, sE, sE], [sE, sE, sE, sE], [sB, sB, sB, sE], [sB, sE, sE, sE]]
  | .J, .Clockwise =>
      [[sE, sE, sE, sE], [sE, sB, sE, sE], [sE, sB, sE, sE], [sE, sB, sB, sE]]
  | .J, .OneEighty =>
      [[sE, sE, sE, sE], [sE, sE, sB, sE], [sB, sB, sB, sE], [sE, sE, sE, sE]]
  | .J, .CounterClockwise =>
      [[sE, sE, sE, sE], [sB, sB, sE, sE], [sE, sB, sE, sE], [sE, sB, sE, sE]]
  | .L, .Spawn =>
      [[sE, sE, sE, sE], [sE, sE, sE, sE], [sB, sB, sB, sE], [sE, sE, sB, sE]]
  | .L, .Clockwise =>
      [[sE, sE, sE, sE], [sE, sB, sB, sE], [sE, sB, sE, sE], [sE, sB, sE, sE]]
  | .L, .OneEighty =>
      [[sE, sE, sE, sE], [sB, sE, sE, sE], [sB, sB, sB, sE], [sE, sE, sE, sE]]
  | .L, .CounterClockwise =>
      [[sE, sE, sE, sE], [sE, sB, sE, sE], [sE, sB, sE, sE], [sB, sB, sE, sE]]

/-- `CurrentPiece`: a piece plus the field position (lower-left corner of
its bounding box). -/
structure CurrentPiece where
  piece : Piece
  row : Int
  col : Int
deriving DecidableEq, Repr

/-- `CurrentPiece::new`: spawn position. -/
def CurrentPiece.new (shape : Tetromino) : CurrentPiece :=
  { piece := { shape := shape, rotation := .Spawn }, row := 19, col := 4 }

def CurrentPiece.rotateCw (cp : CurrentPiece) : CurrentPiece :=
  { cp with piece := { cp.piece with rotation := cp.piece.rotation.cw } }

def CurrentPiece.rotateCcw (cp : CurrentPiece) : CurrentPiece :=
  { cp with piece := { cp.piece with rotation := cp.piece.rotation.ccw } }

/-- The bounding-box cells in the iteration order of
`BaseEngine::has_collision_with_piece`: row offset 0 first, then each
column offset. -/
def enumerateCells (bbx : List (List Space)) : List (Nat × Nat × Space) :=
  (bbx.enum.map (fun rp => rp.2.enum.map (fun cp => (rp.1, cp.1, cp.2)))).flatten

namespace BaseEngine

/-- The cell-by-cell loop of `BaseEngine::has_collision_with_piece`,
short-circuiting at the first colliding block.  The playfield access in
the in-field branch can panic (`none`) when the cell's row is above 40,
because the source only guards `row >= 1 && col >= 1` before `get`. -/
def collisionScan (pf : Playfield) (p : CurrentPiece) :
    List (Nat × Nat × Space) → Option Bool
  | [] => some false
  | (ro, co, sp) :: rest =>
    let row : Int := p.row + (ro : Int)
    let col : Int := p.col + (co : Int)
    if sp = Space.Block then
      if row < 1 ∨ col < 1 ∨ col > 10 then some true
      else do
        let cell ← pf.get? row col
        if cell = Space.Block then some true else collisionScan pf p rest
    else collisionScan pf p rest

/-- `BaseEngine::has_collision_with_piece`; `none` models a panic. -/
def hasCollisionWithPiece (pf : Playfield) (p : CurrentPiece) : Option Bool :=
  collisionScan pf p (enumerateCells p.piece.getBoundingBox)

/-- The internal 4-valued spin marker (`TSpinInternal` in the source). -/
inductive TSpinInternal
  | None
  | Regular
  | Mini
  | PointFive
deriving DecidableEq, Repr

/-- The public spin classification (`TSpin` in the source). -/
inductive TSpin
  | None
  | Regular
  | Mini
deriving DecidableEq, Repr

/-- `impl From<&TSpinInternal> for TSpin`. -/
def TSpin.fromInternal : TSpinInternal → TSpin
  | .None => .None
  | .Regular => .Regular
  | .PointFive => .Regular
  | .Mini => .Mini

/-- The wall-kick offset table of `BaseEngine::check_rotation`, as
(Δcol, Δrow) pairs.  `none` models the panics: the O arm, and the 180°
(or identity) rotation pairs of the I and shared arms. -/
def wallKickOffsets (shape : Tetromino) (initial rotated : Rotation) :
    Option (List (Int × Int)) :=
  match shape with
  | .O => none
  | .I =>
    match initial, rotated with
    | .Spawn, .Clockwise => some [(-2, 0), (1, 0), (-2, -1), (1, 2)]
    | .Clockwise, .Spawn => some [(2, 0), (-1, 0), (2, 1), (-1, -2)]
    | .Clockwise, .OneEighty => some [(-1, 0), (2, 0), (-1, 2), (2, -1)]
    | .OneEighty, .Clockwise => some [(1, 0), (-2, 0), (1, -2), (-2, 1)]
    | .OneEighty, .CounterClockwise => some [(2, 0), (-1, 0), (2, 1), (-1, -2)]
    | .CounterClockwise, .OneEighty => some [(-2, 0), (1, 0), (-2, -1), (1, 2)]
    | .CounterClockwise, .Spawn => some [(1, 0), (-2, 0), (1, -2), (-2, 1)]
    | .Spawn, .CounterClockwise => some [(-1, 0), (2, 0), (-1, 2), (2, -1)]
    | _, _ => none
  | _ =>
    match initial, rotated with
    | .Spawn, .Clockwise => some [(-1, 0), (-1, 1), (0, -2), (-1, -2)]
    | .Clockwise, .Spawn => some [(1, 0), (1, -1), (0, 2), (1, 2)]
    | .Clockwise, .OneEighty => some [(1, 0), (1, -1), (0, 2), (1, 2)]
    | .OneEighty, .Clockwise => some [(-1, 0), (-1, 1), (0, -2), (-1, -2)]
    | .OneEighty, .CounterClockwise => some [(1, 0), (1, 1), (0, -2), (1, -2)]
    | .CounterClockwise, .OneEighty => some [(-1, 0), (-1, -1), (0, 2), (-1, 2)]
    | .CounterClockwise, .Spawn => some [(-1, 0), (-1, -1), (0, 2), (-1, 2)]
    | .Spawn, .CounterClockwise => some [(1, 0), (1, 1), (0, -2), (1, -2)]
    | _, _ => none

/-- The kick-testing loop of `BaseEngine::check_rotation`.  `idx` is the
zero-based `enumerate()` index (the source calls it `rotation_point`);
`curShape` is `self.current_piece.piece.get_shape()`.  On the first
non-colliding offset the source sets `current_t_spin` to `PointFive`
when the current piece is a T and `rotation_point == 4` — kept verbatim,
including that comparison. -/
def checkRotationLoop (pf : Playfield) (curShape : Tetromino)
    (tSpin : TSpinInternal) (piece : CurrentPiece) :
    List (Int × Int) → Nat → Option (Option (Int × Int) × TSpinInternal)
  | [], _ => some (none, tSpin)
  | off :: rest, idx => do
    let p := { piece with col := piece.col + off.1, row := piece.row + off.2 }
    let c ← hasCollisionWithPiece pf p
    if c then checkRotationLoop pf curShape tSpin piece rest (idx + 1)
    else
      some (some off,
        if curShape = Tetromino.T ∧ idx = 4 then TSpinInternal.PointFive
        else tSpin)

/-- `BaseEngine::check_rotation`.  Returns the successful (Δcol, Δrow)
offset (or `none` inside `some` for "no valid kick") together with the
resulting `current_t_spin`; the outer `none` models a panic. -/
def checkRotation (pf : Playfield) (curShape : Tetromino)
    (tSpin : TSpinInternal) (piece : CurrentPiece)
    (initial rotated : Rotation) :
    Option (Option (Int × Int) × TSpinInternal) := do
  let c ← hasCollisionWithPiece pf piece
  if c then do
    let offs ← wallKickOffsets piece.piece.shape initial rotated
    checkRotationLoop pf curShape tSpin piece offs 0
  else pure (some (0, 0), tSpin)

/-- Row/column offsets of the four T corners A, B, C, D for each
rotation, from `BaseEngine::detect_t_spin`. -/
def tCornerOffsets (r : Rotation) :
    (Int × Int) × (Int × Int) × (Int × Int) × (Int × Int) :=
  match r with
  | .Spawn => ((3, 0), (3, 2), (1, 0), (1, 2))
  | .Clockwise => ((3, 2), (1, 2), (3, 0), (1, 0))
  | .OneEighty => ((1, 2), (1, 0), (3, 2), (3, 0))
  | .CounterClockwise => ((1, 0), (3, 0), (1, 2), (3, 2))

/-- The local `is_occupied` of `detect_t_spin`.  The short-circuiting
bounds disjuncts make the playfield access safe, so this is total. -/
def isOccupied (pf : Playfield) (cp : CurrentPiece) (rowOff colOff : Int) :
    Bool :=
  let row := cp.row + rowOff
  let col := cp.col + colOff
  row < 1 ∨ row > 40 ∨ col < 1 ∨ col > 10 ∨
    (pf.get? row col).getD Space.Empty = Space.Block

/-- `BaseEngine::detect_t_spin` (assumes a rotation has just occurred). -/
def detectTSpin (pf : Playfield) (cp : CurrentPiece)
    (tSpin : TSpinInternal) : TSpinInternal :=
  if cp.piece.shape ≠ Tetromino.T then .None
  else if tSpin = TSpinInternal.PointFive then .PointFive
  else
    let offs := tCornerOffsets cp.piece.rotation
    let a := isOccupied pf cp offs.1.1 offs.1.2
    let b := isOccupied pf cp offs.2.1.1 offs.2.1.2
    let c := isOccupied pf cp offs.2.2.1.1 offs.2.2.1.2
    let d := isOccupied pf cp offs.2.2.2.1 offs.2.2.2.2
    if a ∧ b ∧ (c ∨ d) then .Regular
    else if c ∧ d ∧ (a ∨ b) then .Mini
    else .None

end BaseEngine

/-- The engine states (`State` in the source); tick counters are `u32`,
modelled by `Nat`. -/
inductive GameState
  | Spawn
  | Falling (n : Nat)
  | Lock (n : Nat)
  | LineClear (n : Nat)
  | TopOut
deriving DecidableEq, Repr

/-- `Gravity`; the `u8` payloads are modelled by `Nat`. -/
inductive Gravity
  | TicksPerRow (n : Nat)
  | RowsPerTick (n : Nat)
deriving DecidableEq, Repr

inductive Action
  | MoveLeft
  | MoveRight
  | RotateClockwise
  | RotateCounterClockwise
  | SoftDrop
  | HardDrop
  | Hold
deriving DecidableEq, Repr

/-- The per-tick action set handed to the tick functions (the `HashSet`
returned by `process_input`), as one membership flag per action. -/
structure ActionSet where
  moveLeft : Bool
  moveRight : Bool
  rotateCw : Bool
  rotateCcw : Bool
  softDrop : Bool
  hardDrop : Bool
  hold : Bool
deriving DecidableEq, Repr

def ActionSet.empty : ActionSet :=
  { moveLeft := false, moveRight := false, rotateCw := false,
    rotateCcw := false, softDrop := false, hardDrop := false, hold := false }

/-- Observer notifications (`notify_observers` calls), recorded as an
event log. -/
inductive Event
  | lockEvent (t : BaseEngine.TSpin)
  | softDropEvent (n : Nat)
  | hardDropEvent (n : Nat)
  | lineClearEvent (n : Nat)
deriving DecidableEq, Repr

/-- The mutable state of `BaseEngine`.  The randomizer
(`tetromino_generator`) is modelled as a deterministic stream `gen`
read at position `genIdx`; observers as the `events` log. -/
structure EngineState where
  playfield : Playfield
  currentPiece : CurrentPiece
  holdPiece : Option Tetromino
  isHoldAvailable : Bool
  gravity : Gravity
  nextPieces : List Tetromino
  state : GameState
  currentTSpin : BaseEngine.TSpinInternal
  gen : Nat → Tetromino
  genIdx : Nat
  events : List Event

namespace BaseEngine

def LOCK_DELAY : Nat := 30
def LINE_CLEAR_DELAY : Nat := 30

/-- The rotation direction handed to `rotate_piece` (the closure built
by `rotate_piece_cw` / `rotate_piece_ccw`). -/
inductive RotDir
  | cw
  | ccw
deriving DecidableEq, Repr

def applyRotation (dir : RotDir) (cp : CurrentPiece) : CurrentPiece :=
  match dir with
  | .cw => cp.rotateCw
  | .ccw => cp.rotateCcw

/-- `BaseEngine::rotate_piece`.  Returns the success flag together with
the resulting engine state; `none` models a panic. -/
def rotatePiece (s : EngineState) (dir : RotDir) :
    Option (Bool × EngineState) := do
  let initial := s.currentPiece.piece.rotation
  let updatedPiece := applyRotation dir s.currentPiece
  let rotated := updatedPiece.piece.rotation
  let (res, tSpin1) ← checkRotation s.playfield s.currentPiece.piece.shape
    s.currentTSpin updatedPiece initial rotated
  match res with
  | some off =>
    let cp1 := { s.currentPiece with
      col := s.currentPiece.col + off.1, row := s.currentPiece.row + off.2 }
    let cp2 := applyRotation dir cp1
    let tSpin2 := detectTSpin s.playfield cp2 tSpin1
    pure (true, { s with currentPiece := cp2, currentTSpin := tSpin2 })
  | none => pure (false, { s with currentTSpin := tSpin1 })

def rotatePieceCw (s : EngineState) : Option (Bool × EngineState) :=
  rotatePiece s .cw

def rotatePieceCcw (s : EngineState) : Option (Bool × EngineState) :=
  rotatePiece s .ccw

/-- The loop of `BaseEngine::drop`: step down one row at a time,
reverting the step that collides; returns the rows actually moved. -/
def dropLoop (pf : Playfield) (cp : CurrentPiece) :
    Nat → Nat → Option (CurrentPiece × Nat)
  | 0, moved => some (cp, moved)
  | fuel + 1, moved => do
    let cp1 := { cp with row := cp.row - 1 }
    let c ← hasCollisionWithPiece pf cp1
    if c then some (cp, moved) else dropLoop pf cp1 fuel (moved + 1)

/-- `BaseEngine::drop`. -/
def dropPiece (pf : Playfield) (cp : CurrentPiece) (nRows : Nat) :
    Option (CurrentPiece × Nat) :=
  dropLoop pf cp nRows 0

/-- The loop of `BaseEngine::move_piece`. -/
def moveLoop (pf : Playfield) (cp : CurrentPiece) (sign : Int) :
    Nat → Nat → Option (CurrentPiece × Nat)
  | 0, moved => some (cp, moved)
  | fuel + 1, moved => do
    let cp1 := { cp with col := cp.col + sign }
    let c ← hasCollisionWithPiece pf cp1
    if c then some (cp, moved) else moveLoop pf cp1 sign fuel (moved + 1)

/-- `BaseEngine::move_piece`. -/
def movePiece (pf : Playfield) (cp : CurrentPiece) (colOffset : Int) :
    Option (CurrentPiece × Nat) :=
  moveLoop pf cp colOffset.sign colOffset.natAbs 0

/-- `BaseEngine::is_in_lock_position`. -/
def isInLockPosition (s : EngineState) : Option Bool :=
  hasCollisionWithPiece s.playfield
    { s.currentPiece with row := s.currentPiece.row - 1 }

/-- The cell loop of `BaseEngine::lock`: write each occupied
bounding-box cell into the playfield (`set` can panic). -/
def lockScan (cp : CurrentPiece) :
    Playfield → List (Nat × Nat × Space) → Option Playfield
  | pf, [] => some pf
  | pf, (ro, co, sp) :: rest => do
    if sp = Space.Block then
      let pf1 ← pf.setCell? (cp.row + (ro : Int)) (cp.col + (co : Int))
      lockScan cp pf1 rest
    else lockScan cp pf rest

/-- `BaseEngine::lock`. -/
def lockPiece (pf : Playfield) (cp : CurrentPiece) : Option Playfield :=
  lockScan cp pf (enumerateCells cp.piece.getBoundingBox)

def rowList : List Int := (List.range' 1 40).map (fun n => (n : Int))
def colList : List Int := (List.range' 1 10).map (fun n => (n : Int))

/-- Inner loop of `contains_full_rows`: a row is full until an `Empty`
space is found (then `break`). -/
def rowFull? (pf : Playfield) (row : Int) : List Int → Option Bool
  | [] => some true
  | col :: rest => do
    let s ← pf.get? row col
    if s = Space.Empty then some false else rowFull? pf row rest

/-- Outer loop of `BaseEngine::contains_full_rows`. -/
def containsFullRowsAux (pf : Playfield) : List Int → Option Bool
  | [] => some false
  | row :: rest => do
    let full ← rowFull? pf row colList
    if full then some true else containsFullRowsAux pf rest

/-- `BaseEngine::contains_full_rows`. -/
def containsFullRows (pf : Playfield) : Option Bool :=
  containsFullRowsAux pf rowList

/-- Inner loop of the non-full-row scan in `clear_rows`: a row is kept
when some column holds an `Empty` space (then `break`). -/
def rowHasEmpty? (pf : Playfield) (row : Int) : List Int → Option Bool
  | [] => some false
  | col :: rest => do
    let s ← pf.get? row col
    if s = Space.Empty then some true else rowHasEmpty? pf row rest

/-- First pass of `clear_rows`: the ordered list of rows that are NOT
full. -/
def nonFullRowsScan (pf : Playfield) : List Int → Option (List Int)
  | [] => some []
  | row :: rest => do
    let keep ← rowHasEmpty? pf row colList
    let tail ← nonFullRowsScan pf rest
    pure (if keep then row :: tail else tail)

/-- Copy one non-full row of `clear_rows` into the compaction slot,
reading from the playfield being rewritten, as the source does. -/
def copyRowCells (srcRow dstRow : Int) :
    Playfield → List Int → Option Playfield
  | pf, [] => some pf
  | pf, col :: rest => do
    let s ← pf.get? srcRow col
    let pf1 ←
      match s with
      | Space.Empty => pf.clearCell? dstRow col
      | Space.Block => pf.setCell? dstRow col
    copyRowCells srcRow dstRow pf1 rest

/-- The compaction pass of `clear_rows`. -/
def copyRows (currentRow : Int) :
    Playfield → List Int → Option (Playfield × Int)
  | pf, [] => some (pf, currentRow)
  | pf, row :: rest => do
    let pf1 ← copyRowCells row currentRow pf colList
    copyRows (currentRow + 1) pf1 rest

def clearRowCells (row : Int) : Playfield → List Int → Option Playfield
  | pf, [] => some pf
  | pf, col :: rest => do
    let pf1 ← pf.clearCell? row col
    clearRowCells row pf1 rest

def clearRemainingRows : Playfield → List Int → Option Playfield
  | pf, [] => some pf
  | pf, row :: rest => do
    let pf1 ← clearRowCells row pf colList
    clearRemainingRows pf1 rest

/-- `for row in current_row..TOTAL_HEIGHT` — an *exclusive* upper bound,
so rows `currentRow` up to 39 only. -/
def remainingRowList (currentRow : Int) : List Int :=
  (List.range (40 - currentRow).toNat).map (fun i => currentRow + (i : Int))

/-- `BaseEngine::clear_rows`: returns the rewritten playfield and the
number of cleared rows (`TOTAL_HEIGHT - non_full_rows.len()`). -/
def clearRows (pf : Playfield) : Option (Playfield × Nat) := do
  let nonFullRows ← nonFullRowsScan pf rowList
  if nonFullRows.length = 40 then pure (pf, 0)
  else do
    let (pf1, currentRow) ← copyRows 1 pf nonFullRows
    let pf2 ← clearRemainingRows pf1 (remainingRowList currentRow)
    pure (pf2, 40 - nonFullRows.length)

/-- `BaseEngine::next_piece`: pop the front of the upcoming queue into
play, refill from the randomizer, re-arm hold.  `none` models the
"This should never happen" panic on an empty queue. -/
def nextPiece (s : EngineState) : Option EngineState :=
  match s.nextPieces with
  | [] => none
  | p :: rest =>
    some { s with
      currentPiece := CurrentPiece.new p,
      nextPieces := rest ++ [s.gen s.genIdx],
      genIdx := s.genIdx + 1,
      isHoldAvailable := true }

/-- `BaseEngine::hold_piece`. -/
def holdPiece (s : EngineState) : Option EngineState := do
  let currentTetromino := s.currentPiece.piece.shape
  let s1 ←
    match s.holdPiece with
    | some p => pure { s with currentPiece := CurrentPiece.new p }
    | none => nextPiece s
  pure { s1 with holdPiece := some currentTetromino }

/-- `BaseEngine::apply_hold`. -/
def applyHold (s : EngineState) (actions : ActionSet) :
    Option (Bool × EngineState) :=
  if actions.hold ∧ s.isHoldAvailable then do
    let s1 ← holdPiece s
    pure (true, { s1 with isHoldAvailable := false })
  else pure (false, s)

/-- `BaseEngine::apply_piece_move` (left has priority over right). -/
def applyPieceMove (s : EngineState) (actions : ActionSet) :
    Option (Option Action × EngineState) := do
  if actions.moveLeft then
    let (cp, n) ← movePiece s.playfield s.currentPiece (-1)
    if n = 1 then
      pure (some Action.MoveLeft,
        { s with currentPiece := cp, currentTSpin := TSpinInternal.None })
    else pure (none, { s with currentPiece := cp })
  else if actions.moveRight then
    let (cp, n) ← movePiece s.playfield s.currentPiece 1
    if n = 1 then
      pure (some Action.MoveRight,
        { s with currentPiece := cp, currentTSpin := TSpinInternal.None })
    else pure (none, { s with currentPiece := cp })
  else pure (none, s)

/-- `BaseEngine::apply_piece_rotation` (clockwise has priority). -/
def applyPieceRotation (s : EngineState) (actions : ActionSet) :
    Option (Option Action × EngineState) := do
  if actions.rotateCw then
    let (ok, s1) ← rotatePiece s .cw
    pure (if ok then some Action.RotateClockwise else none, s1)
  else if actions.rotateCcw then
    let (ok, s1) ← rotatePiece s .ccw
    pure (if ok then some Action.RotateCounterClockwise else none, s1)
  else pure (none, s)

/-- `BaseEngine::apply_hard_drop` (drop by the total field height). -/
def applyHardDrop (s : EngineState) (actions : ActionSet) :
    Option (Option Action × EngineState) := do
  if actions.hardDrop then
    let (cp, rows) ← dropPiece s.playfield s.currentPiece 40
    let s1 := { s with currentPiece := cp }
    let s2 :=
      if rows > 0 then { s1 with currentTSpin := TSpinInternal.None } else s1
    pure (some Action.HardDrop,
      { s2 with events := s2.events ++ [Event.hardDropEvent rows] })
  else pure (none, s)

/-- `BaseEngine::apply_actions`: hold pre-empts everything; otherwise
move, rotation and hard drop are each attempted in that order. -/
def applyActions (s : EngineState) (actions : ActionSet) :
    Option (List Action × EngineState) := do
  let (held, s1) ← applyHold s actions
  if held then pure ([Action.Hold], s1)
  else do
    let (mAct, s2) ← applyPieceMove s1 actions
    let (rAct, s3) ← applyPieceRotation s2 actions
    let (hAct, s4) ← applyHardDrop s3 actions
    pure (mAct.toList ++ rAct.toList ++ hAct.toList, s4)

/-- `BaseEngine::apply_lock`: write the piece into the field, notify
`on_lock`, reset the spin marker, then branch on full rows. -/
def applyLock (s : EngineState) : Option EngineState := do
  let pf ← lockPiece s.playfield s.currentPiece
  let s1 := { s with
    playfield := pf,
    events := s.events ++ [Event.lockEvent (TSpin.fromInternal s.currentTSpin)],
    currentTSpin := TSpinInternal.None }
  let full ← containsFullRows s1.playfield
  if full then do
    let s2 ← nextPiece s1
    pure { s2 with state := GameState.LineClear 1 }
  else do
    let s2 ← nextPiece s1
    pure { s2 with state := GameState.Spawn }

/-- `BaseEngine::tick_lock`; `none` models the panics (wrong state, or
a panic escaping the helpers). -/
def tickLock (s : EngineState) (actions : ActionSet) : Option EngineState :=
  match s.state with
  | GameState.Lock n =>
    if n = LOCK_DELAY then applyLock s
    else do
      let (applied, s1) ← applyActions s actions
      if applied.contains Action.Hold then
        pure { s1 with state := GameState.Falling 1 }
      else if applied.contains Action.HardDrop then applyLock s1
      else if applied.contains Action.MoveLeft ∨
          applied.contains Action.MoveRight ∨
          applied.contains Action.RotateClockwise ∨
          applied.contains Action.RotateCounterClockwise then do
        let resting ← isInLockPosition s1
        if resting then pure { s1 with state := GameState.Lock 1 }
        else pure { s1 with state := GameState.Falling 1 }
      else pure { s1 with state := GameState.Lock (n + 1) }
  | _ => none

/-- `BaseEngine::tick_line_clear`; `none` models the panics. -/
def tickLineClear (s : EngineState) : Option EngineState :=
  match s.state with
  | GameState.LineClear n =>
    if n = LINE_CLEAR_DELAY then do
      let (pf, nRows) ← clearRows s.playfield
      let s1 := { s with
        playfield := pf,
        events := s.events ++ [Event.lineClearEvent nRows] }
      let s2 ← nextPiece s1
      pure { s2 with state := GameState.Spawn }
    else pure { s with state := GameState.LineClear (n + 1) }
  | _ => none

end BaseEngine

/-- Rust's `as u8` cast applied to a nonnegative finite f64: truncate
toward zero and saturate into [0, 255] (negative values go to 0). -/
def f64ToU8 (q : ℚ) : Nat :=
  if q ≤ 0 then 0 else min 255 ⌊q⌋.toNat

/-- `impl Mul<f64> for Gravity`.  The f64 arithmetic is modelled by
exact rationals; the one place the two differ on the positive inputs the
claims quantify over is division by zero, which in f64 yields +infinity
— a value greater than the clamp threshold — so the `tpr = 0` case is
spelled out to mirror that comparison's outcome. -/
def gravityMul (g : Gravity) (rhs : ℚ) : Gravity :=
  match g with
  | .TicksPerRow tpr =>
    let ticksPerRow : ℚ := (tpr : ℚ)
    if ticksPerRow > rhs then
      .TicksPerRow (f64ToU8 ((round (ticksPerRow / rhs) : ℤ) : ℚ))
    else if ticksPerRow = 0 then
      -- rhs / 0.0 = +infinity in f64, which exceeds VISIBLE_HEIGHT
      .RowsPerTick 20
    else
      let rowsPerTick := rhs / ticksPerRow
      if rowsPerTick > (20 : ℚ) then .RowsPerTick 20
      else .RowsPerTick (f64ToU8 rowsPerTick)
  | .RowsPerTick rpt =>
    let newRowsPerTick : ℚ := (rpt : ℚ) * rhs
    if newRowsPerTick > (20 : ℚ) then .RowsPerTick 20
    else .RowsPerTick (f64ToU8 newRowsPerTick)

/-- Modelled from the spec (section 6): the literal shared kick table
used by T, S, Z, J and L, written from the spec's own list of
(Δcol, Δrow) pairs; pairs the spec calls unsupported are `none`. -/
def specSharedKickOffsets (initial rotated : Rotation) :
    Option (List (Int × Int)) :=
  match initial, rotated with
  | .Spawn, .Clockwise => some [(-1, 0), (-1, 1), (0, -2), (-1, -2)]
  | .Clockwise, .Spawn => some [(1, 0), (1, -1), (0, 2), (1, 2)]
  | .Clockwise, .OneEighty => some [(1, 0), (1, -1), (0, 2), (1, 2)]
  | .OneEighty, .Clockwise => some [(-1, 0), (-1, 1), (0, -2), (-1, -2)]
  | .OneEighty, .CounterClockwise => some [(1, 0), (1, 1), (0, -2), (1, -2)]
  | .CounterClockwise, .OneEighty => some [(-1, 0), (-1, -1), (0, 2), (-1, 2)]
  | .CounterClockwise, .Spawn => some [(-1, 0), (-1, -1), (0, 2), (-1, 2)]
  | .Spawn, .CounterClockwise => some [(1, 0), (1, 1), (0, -2), (1, -2)]
  | _, _ => none

/-- Modelled from the spec (section 6): the literal I-piece kick table,
written from the spec's own list of (Δcol, Δrow) pairs. -/
def specIKickOffsets (initial rotated : Rotation) :
    Option (List (Int × Int)) :=
  match initial, rotated with
  | .Spawn, .Clockwise => some [(-2, 0), (1, 0), (-2, -1), (1, 2)]
  | .Clockwise, .Spawn => some [(2, 0), (-1, 0), (2, 1), (-1, -2)]
  | .Clockwise, .OneEighty => some [(-1, 0), (2, 0), (-1, 2), (2, -1)]
  | .OneEighty, .Clockwise => some [(1, 0), (-2, 0), (1, -2), (-2, 1)]
  | .OneEighty, .CounterClockwise => some [(2, 0), (-1, 0), (2, 1), (-1, -2)]
  | .CounterClockwise, .OneEighty => some [(-2, 0), (1, 0), (-2, -1), (1, 2)]
  | .CounterClockwise, .Spawn => some [(1, 0), (-2, 0), (1, -2), (-2, 1)]
  | .Spawn, .CounterClockwise => some [(-1, 0), (2, 0), (-1, 2), (2, -1)]
  | _, _ => none

/-- Test-input helper: the playfield holding a block at exactly the
listed (row, col) positions. -/
def Playfield.ofBlocks (blocks : List (Int × Int)) : Playfield :=
  (List.range 40).map (fun r => (List.range 10).map (fun c =>
    if blocks.contains (((r : Int) + 1), ((c : Int) + 1)) then Space.Block
    else Space.Empty))

/-- Test-input helper: a concrete engine state around a playfield and a
current piece, with a constant randomizer stream. -/
def mkEngine (pf : Playfield) (cp : CurrentPiece) : EngineState :=
  { playfield := pf
    currentPiece := cp
    holdPiece := none
    isHoldAvailable := true
    gravity := Gravity.TicksPerRow 30
    nextPieces := [Tetromino.I, Tetromino.O, Tetromino.T, Tetromino.S,
      Tetromino.Z]
    state := GameState.Falling 1
    currentTSpin := BaseEngine.TSpinInternal.None
    gen := fun _ => Tetromino.J
    genIdx := 0
    events := [] }

/-!  Concrete test inputs used by the theorems below. -/

/-- A field on which a T at (2,3) rotating Spawn→Clockwise fails in
place and on the first three kick offsets, succeeding only on the
fourth — the last-priority shared kick offset, historically "rotation
point 5". -/
def pfPoint5 : Playfield := Playfield.ofBlocks [(3, 4), (5, 3)]

def enginePoint5 : EngineState :=
  mkEngine pfPoint5 { piece := { shape := .T, rotation := .Spawn }, row := 2, col := 3 }

/-- A field whose row 1 is full and whose row 40 holds one block at
column 1. -/
def pfRow40 : Playfield :=
  Playfield.ofBlocks
    ((List.range 10).map (fun c => ((1 : Int), (c : Int) + 1)) ++ [(40, 1)])

/-- An O piece whose occupied cells sit at rows 42 and 43, columns 5
and 6 — above the field ceiling but inside the columns. -/
def pieceAboveCeiling : CurrentPiece :=
  { piece := { shape := .O, rotation := .Spawn }, row := 40, col := 4 }

/-- An I piece at spawn walled in above and below, so that the in-place
rotation and all four I kicks collide. -/
def pfSurroundedI : Playfield :=
  Playfield.ofBlocks
    [(20, 4), (20, 5), (20, 6), (20, 7), (22, 4), (22, 5), (22, 6), (22, 7)]

def engineSurroundedI : EngineState :=
  mkEngine pfSurroundedI (CurrentPiece.new .I)

/-- An O piece resting on the floor, lock timer at 3. -/
def engineLockFloor : EngineState :=
  { mkEngine Playfield.new
      { piece := { shape := .O, rotation := .Spawn }, row := -1, col := 4 } with
    state := GameState.Lock 3 }

/-- A line-clear pause in progress over `pfRow40`. -/
def engineLineClear (n : Nat) : EngineState :=
  { mkEngine pfRow40 (CurrentPiece.new .O) with state := GameState.LineClear n }

/-- Row 1 filled in columns 1..8; an O piece placed to complete it. -/
def pfAlmostRow : Playfield :=
  Playfield.ofBlocks ((List.range 8).map (fun c => ((1 : Int), (c : Int) + 1)))

def engineAboutToClear : EngineState :=
  mkEngine pfAlmostRow { piece := { shape := .O, rotation := .Spawn }, row := -1, col := 8 }

/-!  Claim theorems. -/

open BaseEngine

/-- Claim C1 (code bug).  On `pfPoint5` the T piece's Spawn→Clockwise
rotation collides in place and on the shared kick offsets at enumerate
indices 0, 1 and 2, and succeeds exactly on the offset at index 3 —
the last-priority shared kick offset, historically "rotation point 5".
The claim (and the spec) say the spin marker must then be the
distinguished borderline variant (`PointFive`); the code instead leaves
it to the corner test (here `None`), because `check_rotation` compares
the zero-based `enumerate()` index against 4, which a four-entry table
never reaches, making the `PointFive` assignment dead code — contrary
to the source's own comment that "Rotation point use one-based index". -/
theorem t_spin_rotation_point5_never_set :
    hasCollisionWithPiece pfPoint5
      { piece := { shape := .T, rotation := .Clockwise }, row := 2, col := 3 } = some true ∧
    hasCollisionWithPiece pfPoint5
      { piece := { shape := .T, rotation := .Clockwise }, row := 2, col := 2 } = some true ∧
    hasCollisionWithPiece pfPoint5
      { piece := { shape := .T, rotation := .Clockwise }, row := 3, col := 2 } = some true ∧
    hasCollisionWithPiece pfPoint5
      { piece := { shape := .T, rotation := .Clockwise }, row := 0, col := 3 } = some true ∧
    hasCollisionWithPiece pfPoint5
      { piece := { shape := .T, rotation := .Clockwise }, row := 0, col := 2 } = some false ∧
    wallKickOffsets Tetromino.T Rotation.Spawn Rotation.Clockwise =
      some [(-1, 0), (-1, 1), (0, -2), (-1, -2)] ∧
    (rotatePiece enginePoint5 .cw).map
        (fun r => (r.1, r.2.currentPiece, r.2.currentTSpin)) =
      some (true,
        { piece := { shape := .T, rotation := .Clockwise }, row := 0, col := 2 },
        TSpinInternal.None) := by
  decide

/-- Claim C2 (code bug).  On `pfRow40` (row 1 full, a single block at
(40,1)) `clear_rows` reports 1 cleared row and copies the old row 40
into row 39, but the final clearing loop `for row in
current_row..TOTAL_HEIGHT` excludes row 40 itself, so the block at
(40,1) survives — the claim (and spec) require every row above the last
compacted row, up to and including row 40, to be entirely `Empty`; the
block is duplicated instead of moved. -/
theorem clear_rows_leaves_row_forty :
    (clearRows pfRow40).map
        (fun r => (r.2, r.1.get? 40 1, r.1.get? 39 1, r.1.get? 38 1)) =
      some (1, some Space.Block, some Space.Block, some Space.Empty) := by
  decide

/-- Claim C3 (code bug).  `has_collision_with_piece` on an O piece whose
occupied cells sit at rows 42–43, columns 5–6 — above the field ceiling
but within columns 1..10 — panics (modelled by `none`) instead of
reporting no collision: the in-field branch only guards
`row >= 1 && col >= 1` before calling `Playfield::get`, whose index
check rejects rows above 40. -/
theorem collision_check_panics_above_ceiling :
    hasCollisionWithPiece Playfield.new pieceAboveCeiling = none := by
  decide

/-!  Helper lemmas about the rotation machinery. -/

lemma applyRotation_row (dir : RotDir) (cp : CurrentPiece) :
    (applyRotation dir cp).row = cp.row := by
  cases dir <;> rfl

lemma applyRotation_col (dir : RotDir) (cp : CurrentPiece) :
    (applyRotation dir cp).col = cp.col := by
  cases dir <;> rfl

lemma applyRotation_shape (dir : RotDir) (cp : CurrentPiece) :
    (applyRotation dir cp).piece.shape = cp.piece.shape := by
  cases dir <;> rfl

/-- If every kick offset collides, the kick loop reports failure and
leaves the spin marker untouched. -/
lemma checkRotationLoop_all_collide (pf : Playfield) (curShape : Tetromino)
    (tSpin : TSpinInternal) (piece : CurrentPiece) :
    ∀ (offs : List (Int × Int)) (idx : Nat),
      (∀ off ∈ offs, hasCollisionWithPiece pf
        { piece with col := piece.col + off.1, row := piece.row + off.2 } =
          some true) →
      checkRotationLoop pf curShape tSpin piece offs idx = some (none, tSpin) := by
  intro offs
  induction offs with
  | nil => intro idx _; rfl
  | cons off rest ih =>
    intro idx h
    have h1 := h off (List.mem_cons_self off rest)
    simp only [checkRotationLoop, h1, Option.bind_eq_bind, Option.some_bind,
      if_true]
    exact ih (idx + 1) (fun o ho => h o (List.mem_cons_of_mem off ho))

/-- If the first `N` kick offsets collide and the `N`-th does not, the
kick loop returns exactly that offset. -/
lemma checkRotationLoop_first_fit (pf : Playfield) (curShape : Tetromino)
    (tSpin : TSpinInternal) (piece : CurrentPiece) :
    ∀ (offs : List (Int × Int)) (N idx : Nat) (off : Int × Int),
      offs[N]? = some off →
      (∀ o ∈ offs.take N, hasCollisionWithPiece pf
        { piece with col := piece.col + o.1, row := piece.row + o.2 } =
          some true) →
      hasCollisionWithPiece pf
        { piece with col := piece.col + off.1, row := piece.row + off.2 } =
          some false →
      checkRotationLoop pf curShape tSpin piece offs idx =
        some (some off,
          if curShape = Tetromino.T ∧ idx + N = 4 then TSpinInternal.PointFive
          else tSpin) := by
  intro offs
  induction offs with
  | nil => intro N idx off hN; simp at hN
  | cons off0 rest ih =>
    intro N idx off hN hpre hok
    cases N with
    | zero =>
      simp only [List.getElem?_cons_zero, Option.some.injEq] at hN
      subst hN
      simp only [checkRotationLoop, hok, Option.bind_eq_bind, Option.some_bind,
        if_false, Nat.add_zero, Bool.false_eq_true, ite_false]
    | succ m =>
      have h0 := hpre off0 (by simp)
      simp only [checkRotationLoop, h0, Option.bind_eq_bind, Option.some_bind,
        if_true]
      have step := ih m (idx + 1) off
        (by simpa using hN)
        (fun o ho => hpre o (by simp [List.take_succ_cons]; right; exact ho))
        hok
      rw [step]
      have : idx + 1 + m = idx + (m + 1) := by omega
      rw [this]

/-- Every kick table entry has exactly four offsets. -/
lemma wallKickOffsets_length4 :
    ∀ (sh : Tetromino) (i r : Rotation),
      ((wallKickOffsets sh i r).getD []).length = 4 ∨
        wallKickOffsets sh i r = none := by
  decide

/-- Claim C4.  The code's kick tables are, pair by pair, the literal
tables of spec section 6 — the shared table for T, S, Z, J and L and
the I table — and a rotation attempt that collides in place and first
succeeds on the `N`-th listed candidate leaves the piece rotated one
step and displaced by exactly that (Δcol, Δrow) pair. -/
theorem kick_tables_match_spec_and_first_kick_applies :
    (∀ (shape : Tetromino),
      shape = Tetromino.T ∨ shape = Tetromino.S ∨ shape = Tetromino.Z ∨
        shape = Tetromino.J ∨ shape = Tetromino.L →
      ∀ i r, wallKickOffsets shape i r = specSharedKickOffsets i r) ∧
    (∀ i r, wallKickOffsets Tetromino.I i r = specIKickOffsets i r) ∧
    (∀ (s : EngineState) (dir : RotDir) (offs : List (Int × Int)) (N : Nat)
        (off : Int × Int),
      hasCollisionWithPiece s.playfield (applyRotation dir s.currentPiece) =
        some true →
      wallKickOffsets s.currentPiece.piece.shape s.currentPiece.piece.rotation
        (applyRotation dir s.currentPiece).piece.rotation = some offs →
      offs[N]? = some off →
      (∀ o ∈ offs.take N, hasCollisionWithPiece s.playfield
        { applyRotation dir s.currentPiece with
          col := (applyRotation dir s.currentPiece).col + o.1,
          row := (applyRotation dir s.currentPiece).row + o.2 } = some true) →
      hasCollisionWithPiece s.playfield
        { applyRotation dir s.currentPiece with
          col := (applyRotation dir s.currentPiece).col + off.1,
          row := (applyRotation dir s.currentPiece).row + off.2 } = some false →
      rotatePiece s dir = some (true,
        { s with
          currentPiece := applyRotation dir
            { s.currentPiece with
              col := s.currentPiece.col + off.1,
              row := s.currentPiece.row + off.2 },
          currentTSpin := detectTSpin s.playfield
            (applyRotation dir
              { s.currentPiece with
                col := s.currentPiece.col + off.1,
                row := s.currentPiece.row + off.2 })
            s.currentTSpin })) := by
  refine ⟨by decide, by decide, ?_⟩
  intro s dir offs N off hip htab hN hpre hok
  have hlen : offs.length = 4 := by
    rcases wallKickOffsets_length4 s.currentPiece.piece.shape
        s.currentPiece.piece.rotation
        (applyRotation dir s.currentPiece).piece.rotation with h | h
    · rw [htab] at h; simpa using h
    · rw [htab] at h; simp at h
  have hN4 : N < 4 := by
    obtain ⟨h, -⟩ := List.getElem?_eq_some.mp hN
    omega
  have hshape := applyRotation_shape dir s.currentPiece
  have hcheck : checkRotation s.playfield s.currentPiece.piece.shape
      s.currentTSpin (applyRotation dir s.currentPiece)
      s.currentPiece.piece.rotation
      (applyRotation dir s.currentPiece).piece.rotation =
      some (some off, s.currentTSpin) := by
    have hloop := checkRotationLoop_first_fit s.playfield
      s.currentPiece.piece.shape s.currentTSpin
      (applyRotation dir s.currentPiece) offs N 0 off hN hpre hok
    have hcond : ¬ (s.currentPiece.piece.shape = Tetromino.T ∧ 0 + N = 4) := by
      rintro ⟨-, h4⟩; omega
    rw [if_neg hcond] at hloop
    simp [checkRotation, hip, hshape, htab, hloop]
  simp [rotatePiece, hcheck]

/-- Claim C6.  A rotation attempt whose in-place test and every kick
candidate collide fails and leaves the engine exactly as it was:
current piece (shape, rotation, row, column), playfield and spin marker
unchanged. -/
theorem failed_rotation_leaves_engine_unchanged (s : EngineState)
    (dir : RotDir) (offs : List (Int × Int))
    (hip : hasCollisionWithPiece s.playfield
      (applyRotation dir s.currentPiece) = some true)
    (htab : wallKickOffsets s.currentPiece.piece.shape
      s.currentPiece.piece.rotation
      (applyRotation dir s.currentPiece).piece.rotation = some offs)
    (hall : ∀ off ∈ offs, hasCollisionWithPiece s.playfield
      { applyRotation dir s.currentPiece with
        col := (applyRotation dir s.currentPiece).col + off.1,
        row := (applyRotation dir s.currentPiece).row + off.2 } = some true) :
    rotatePiece s dir = some (false, s) := by
  have hshape := applyRotation_shape dir s.currentPiece
  have hloop := checkRotationLoop_all_collide s.playfield
    s.currentPiece.piece.shape s.currentTSpin
    (applyRotation dir s.currentPiece) offs 0 hall
  have hcheck : checkRotation s.playfield s.currentPiece.piece.shape
      s.currentTSpin (applyRotation dir s.currentPiece)
      s.currentPiece.piece.rotation
      (applyRotation dir s.currentPiece).piece.rotation =
      some (none, s.currentTSpin) := by
    simp [checkRotation, hip, hshape, htab, hloop]
  simp [rotatePiece, hcheck]

/-- The collision scan only reads the piece's position, not its
shape or rotation (those are already fixed by the cell list). -/
lemma collisionScan_congr (pf : Playfield) (p q : CurrentPiece)
    (hrow : p.row = q.row) (hcol : p.col = q.col) :
    ∀ l, collisionScan pf p l = collisionScan pf q l := by
  intro l
  induction l with
  | nil => rfl
  | cons hd tl ih =>
    obtain ⟨ro, co, sp⟩ := hd
    simp only [collisionScan, hrow, hcol, ih]

/-- The O bounding box is the same in all four rotation states. -/
lemma bbox_O_invariant (r : Rotation) :
    (Piece.mk Tetromino.O r).getBoundingBox =
      (Piece.mk Tetromino.O Rotation.Spawn).getBoundingBox := by
  cases r <;> rfl

/-- Rotating an O piece does not change its collision status. -/
lemma hasCollision_O_rotation (pf : Playfield) (cp : CurrentPiece)
    (hO : cp.piece.shape = Tetromino.O) (dir : RotDir) :
    hasCollisionWithPiece pf (applyRotation dir cp) =
      hasCollisionWithPiece pf cp := by
  obtain ⟨⟨sh, rot⟩, row, col⟩ := cp
  cases hO
  have hb : (applyRotation dir ⟨⟨Tetromino.O, rot⟩, row, col⟩).piece.getBoundingBox
      = (Piece.mk Tetromino.O rot).getBoundingBox := by
    cases dir <;> cases rot <;> rfl
  unfold hasCollisionWithPiece
  rw [hb]
  exact collisionScan_congr pf _ _ (applyRotation_row dir _)
    (applyRotation_col dir _) _

/-- `detect_t_spin` classifies every non-T piece as `None`. -/
lemma detectTSpin_not_T (pf : Playfield) (cp : CurrentPiece)
    (t : TSpinInternal) (h : cp.piece.shape ≠ Tetromino.T) :
    detectTSpin pf cp t = TSpinInternal.None := by
  simp [detectTSpin, h]

/-- Claim C7.  For an O piece in a non-colliding position a rotation
attempt never consults the kick table: the O mask is identical in all
four rotation states, so the in-place test succeeds, `check_rotation`
returns the trivial (0,0) offset, and the kick-table `panic!` arm for O
is unreachable (the result is `some`, not the panic `none`). -/
theorem o_piece_rotation_trivial (s : EngineState) (dir : RotDir)
    (hO : s.currentPiece.piece.shape = Tetromino.O)
    (hnc : hasCollisionWithPiece s.playfield s.currentPiece = some false) :
    checkRotation s.playfield s.currentPiece.piece.shape s.currentTSpin
        (applyRotation dir s.currentPiece) s.currentPiece.piece.rotation
        (applyRotation dir s.currentPiece).piece.rotation =
      some (some (0, 0), s.currentTSpin) ∧
    rotatePiece s dir = some (true,
      { s with currentPiece := applyRotation dir s.currentPiece,
               currentTSpin := TSpinInternal.None }) := by
  have hup : hasCollisionWithPiece s.playfield
      (applyRotation dir s.currentPiece) = some false := by
    rw [hasCollision_O_rotation s.playfield s.currentPiece hO dir]; exact hnc
  have hcheck : checkRotation s.playfield s.currentPiece.piece.shape
      s.currentTSpin (applyRotation dir s.currentPiece)
      s.currentPiece.piece.rotation
      (applyRotation dir s.currentPiece).piece.rotation =
      some (some (0, 0), s.currentTSpin) := by
    simp [checkRotation, hup]
  refine ⟨hcheck, ?_⟩
  have heta :
      ({ piece := s.currentPiece.piece,
         row := s.currentPiece.row,
         col := s.currentPiece.col } : CurrentPiece) = s.currentPiece := rfl
  have hnotT : (applyRotation dir s.currentPiece).piece.shape ≠ Tetromino.T := by
    rw [applyRotation_shape, hO]
    decide
  simp [rotatePiece, hcheck, heta, detectTSpin_not_T _ _ _ hnotT]

/-- Witness for claim C4: on `pfPoint5` the T piece's Spawn→Clockwise
attempt collides in place and on the first three shared kick offsets,
and the fourth candidate (-1,-2) applies, displacing the piece by
exactly that pair. -/
theorem kick_first_fit_witness :
    rotatePiece enginePoint5 .cw = some (true,
      { enginePoint5 with
        currentPiece := applyRotation .cw
          { enginePoint5.currentPiece with
            col := enginePoint5.currentPiece.col + (-1 : Int),
            row := enginePoint5.currentPiece.row + (-2 : Int) },
        currentTSpin := detectTSpin enginePoint5.playfield
          (applyRotation .cw
            { enginePoint5.currentPiece with
              col := enginePoint5.currentPiece.col + (-1 : Int),
              row := enginePoint5.currentPiece.row + (-2 : Int) })
          enginePoint5.currentTSpin }) :=
  kick_tables_match_spec_and_first_kick_applies.2.2 enginePoint5 .cw
    [(-1, 0), (-1, 1), (0, -2), (-1, -2)] 3 (-1, -2)
    (by decide) (by decide) (by decide) (by decide) (by decide)

/-- Witness for claim C6: the walled-in I piece's clockwise rotation
attempt fails on the in-place test and all four I kicks, leaving the
engine unchanged. -/
theorem failed_rotation_witness :
    rotatePiece engineSurroundedI .cw = some (false, engineSurroundedI) :=
  failed_rotation_leaves_engine_unchanged engineSurroundedI .cw
    [(-2, 0), (1, 0), (-2, -1), (1, 2)] (by decide) (by decide) (by decide)

def engineO : EngineState := mkEngine Playfield.new (CurrentPiece.new .O)

/-- Witness for claim C7: an O piece at spawn on the empty field
rotates clockwise via the trivial (0,0) offset. -/
theorem o_piece_rotation_witness :
    checkRotation engineO.playfield engineO.currentPiece.piece.shape
        engineO.currentTSpin (applyRotation .cw engineO.currentPiece)
        engineO.currentPiece.piece.rotation
        (applyRotation .cw engineO.currentPiece).piece.rotation =
      some (some (0, 0), engineO.currentTSpin) ∧
    rotatePiece engineO .cw = some (true,
      { engineO with
        currentPiece := applyRotation .cw engineO.currentPiece,
        currentTSpin := TSpinInternal.None }) :=
  o_piece_rotation_trivial engineO .cw rfl (by decide)

/-- Claim C5.  In state `Lock n`: at `n = LOCK_DELAY` the tick performs
the lock procedure unconditionally; otherwise a successful hold moves to
`Falling 1`; a hard drop performs the lock procedure immediately; a
successful move or rotation re-tests resting and resets to `Lock 1` if
the piece still rests, else `Falling 1`; and with no qualifying applied
action the counter increments to `Lock (n + 1)`. -/
theorem tick_lock_transitions (s : EngineState) (actions : ActionSet)
    (n : Nat) (hs : s.state = GameState.Lock n) :
    (n = LOCK_DELAY → tickLock s actions = applyLock s) ∧
    (n ≠ LOCK_DELAY →
      ∀ applied s1, applyActions s actions = some (applied, s1) →
        ((applied.contains Action.Hold = true →
            tickLock s actions = some { s1 with state := GameState.Falling 1 }) ∧
         (applied.contains Action.Hold = false →
          applied.contains Action.HardDrop = true →
            tickLock s actions = applyLock s1) ∧
         (applied.contains Action.Hold = false →
          applied.contains Action.HardDrop = false →
          (applied.contains Action.MoveLeft = true ∨
           applied.contains Action.MoveRight = true ∨
           applied.contains Action.RotateClockwise = true ∨
           applied.contains Action.RotateCounterClockwise = true) →
          isInLockPosition s1 = some true →
            tickLock s actions = some { s1 with state := GameState.Lock 1 }) ∧
         (applied.contains Action.Hold = false →
          applied.contains Action.HardDrop = false →
          (applied.contains Action.MoveLeft = true ∨
           applied.contains Action.MoveRight = true ∨
           applied.contains Action.RotateClockwise = true ∨
           applied.contains Action.RotateCounterClockwise = true) →
          isInLockPosition s1 = some false →
            tickLock s actions = some { s1 with state := GameState.Falling 1 }) ∧
         (applied.contains Action.Hold = false →
          applied.contains Action.HardDrop = false →
          applied.contains Action.MoveLeft = false →
          applied.contains Action.MoveRight = false →
          applied.contains Action.RotateClockwise = false →
          applied.contains Action.RotateCounterClockwise = false →
            tickLock s actions = some { s1 with state := GameState.Lock (n + 1) }))) := by
  constructor
  · intro h30
    simp [tickLock, hs, h30]
  · intro hne applied s1 happ
    refine ⟨?_, ?_, ?_, ?_, ?_⟩
    · intro hHold
      have h1 : Action.Hold ∈ applied := by simpa using hHold
      simp [tickLock, hs, hne, happ, h1]
    · intro hHold hHard
      have h1 : Action.Hold ∉ applied := by simpa using hHold
      have h2 : Action.HardDrop ∈ applied := by simpa using hHard
      simp [tickLock, hs, hne, happ, h1, h2]
    · intro hHold hHard hMove hrest
      have h1 : Action.Hold ∉ applied := by simpa using hHold
      have h2 : Action.HardDrop ∉ applied := by simpa using hHard
      have h3 : Action.MoveLeft ∈ applied ∨ Action.MoveRight ∈ applied ∨
          Action.RotateClockwise ∈ applied ∨
          Action.RotateCounterClockwise ∈ applied := by simpa using hMove
      simp [tickLock, hs, hne, happ, h1, h2, h3, hrest]
    · intro hHold hHard hMove hrest
      have h1 : Action.Hold ∉ applied := by simpa using hHold
      have h2 : Action.HardDrop ∉ applied := by simpa using hHard
      have h3 : Action.MoveLeft ∈ applied ∨ Action.MoveRight ∈ applied ∨
          Action.RotateClockwise ∈ applied ∨
          Action.RotateCounterClockwise ∈ applied := by simpa using hMove
      simp [tickLock, hs, hne, happ, h1, h2, h3, hrest]
    · intro hHold hHard hML hMR hRC hRCC
      have h1 : Action.Hold ∉ applied := by simpa using hHold
      have h2 : Action.HardDrop ∉ applied := by simpa using hHard
      have h3 : Action.MoveLeft ∉ applied := by simpa using hML
      have h4 : Action.MoveRight ∉ applied := by simpa using hMR
      have h5 : Action.RotateClockwise ∉ applied := by simpa using hRC
      have h6 : Action.RotateCounterClockwise ∉ applied := by simpa using hRCC
      simp [tickLock, hs, hne, happ, h1, h2, h3, h4, h5, h6]

/-- Witness for claim C5: an O piece resting on the floor at `Lock 3`
with no inputs increments to `Lock 4`. -/
theorem tick_lock_witness :
    tickLock engineLockFloor ActionSet.empty =
      some { engineLockFloor with state := GameState.Lock 4 } :=
  ((tick_lock_transitions engineLockFloor ActionSet.empty 3 rfl).2
    (by decide) [] engineLockFloor rfl).2.2.2.2 rfl rfl rfl rfl rfl rfl

/-- Claim C8.  In state `LineClear n`: below the fixed delay threshold
the tick only increments the counter — playfield, current piece, hold
slot and upcoming queue are untouched (the result is the same record
with only `state` updated); at the threshold it compacts the full rows,
appends the rows-cleared notification, draws the next piece and moves
to `Spawn`. -/
theorem tick_line_clear_transitions (s : EngineState) (n : Nat)
    (hs : s.state = GameState.LineClear n) :
    (n ≠ LINE_CLEAR_DELAY →
      tickLineClear s = some { s with state := GameState.LineClear (n + 1) }) ∧
    (n = LINE_CLEAR_DELAY →
      ∀ pf2 k p rest, clearRows s.playfield = some (pf2, k) →
        s.nextPieces = p :: rest →
        tickLineClear s = some
          { s with
            playfield := pf2,
            events := s.events ++ [Event.lineClearEvent k],
            currentPiece := CurrentPiece.new p,
            nextPieces := rest ++ [s.gen s.genIdx],
            genIdx := s.genIdx + 1,
            isHoldAvailable := true,
            state := GameState.Spawn }) := by
  constructor
  · intro hne
    simp [tickLineClear, hs, hne]
  · intro h30 pf2 k p rest hclr hq
    simp [tickLineClear, hs, h30, hclr, nextPiece, hq]

/-- What `clear_rows` makes of `pfRow40`: the stray block was copied
down to (39,1) yet also survives at (40,1). -/
def pfRow40Cleared : Playfield := Playfield.ofBlocks [(39, 1), (40, 1)]

/-- Witness for claim C8: at `LineClear 30` over `pfRow40` the tick
compacts, reports one cleared row, draws the I piece from the queue
front and moves to `Spawn`. -/
theorem tick_line_clear_witness :
    tickLineClear (engineLineClear 30) = some
      { engineLineClear 30 with
        playfield := pfRow40Cleared,
        events := [Event.lineClearEvent 1],
        currentPiece := CurrentPiece.new Tetromino.I,
        nextPieces := [Tetromino.O, Tetromino.T, Tetromino.S, Tetromino.Z,
          Tetromino.J],
        genIdx := 1,
        isHoldAvailable := true,
        state := GameState.Spawn } :=
  (tick_line_clear_transitions (engineLineClear 30) 30 rfl).2 rfl
    pfRow40Cleared 1 Tetromino.I
    [Tetromino.O, Tetromino.T, Tetromino.S, Tetromino.Z]
    (by decide) rfl

lemma f64ToU8_le_20 {q : ℚ} (h : q ≤ 20) : f64ToU8 q ≤ 20 := by
  unfold f64ToU8
  split
  · exact Nat.zero_le _
  · have h1 : ⌊q⌋ ≤ 20 := by
      have h2 : (⌊q⌋ : ℚ) ≤ 20 := le_trans (Int.floor_le q) h
      exact_mod_cast h2
    have h3 := min_le_right 255 ⌊q⌋.toNat
    omega

/-- Claim C9.  Multiplying any gravity by any positive scalar never
produces a `RowsPerTick` above the visible field height: every
`RowsPerTick` result of `gravityMul` stores at most 20 rows. -/
theorem gravity_rows_per_tick_clamped (g : Gravity) (f : ℚ) (hf : 0 < f)
    (n : Nat) (h : gravityMul g f = Gravity.RowsPerTick n) : n ≤ 20 := by
  cases g with
  | TicksPerRow tpr =>
    simp only [gravityMul] at h
    by_cases h1 : (tpr : ℚ) > f
    · rw [if_pos h1] at h
      simp at h
    · rw [if_neg h1] at h
      by_cases h2 : (tpr : ℚ) = 0
      · rw [if_pos h2] at h
        injection h with h3
        omega
      · rw [if_neg h2] at h
        by_cases h3 : f / (tpr : ℚ) > 20
        · rw [if_pos h3] at h
          injection h with h4
          omega
        · rw [if_neg h3] at h
          injection h with h4
          rw [← h4]
          exact f64ToU8_le_20 (not_lt.mp h3)
  | RowsPerTick rpt =>
    simp only [gravityMul] at h
    by_cases h1 : (rpt : ℚ) * f > 20
    · rw [if_pos h1] at h
      injection h with h2
      omega
    · rw [if_neg h1] at h
      injection h with h2
      rw [← h2]
      exact f64ToU8_le_20 (not_lt.mp h1)

/-- Witness for claim C9: `RowsPerTick 5` scaled by 100 is clamped to
the visible height. -/
theorem gravity_clamped_witness :
    gravityMul (Gravity.RowsPerTick 5) (100 : ℚ) = Gravity.RowsPerTick 20 ∧
      20 ≤ 20 :=
  ⟨by norm_num [gravityMul],
   gravity_rows_per_tick_clamped (Gravity.RowsPerTick 5) 100 (by norm_num) 20
     (by norm_num [gravityMul])⟩

/-- Claim C10.  When the lock procedure finds at least one full row it
draws from the queue at lock time and enters `LineClear 1`; while the
clear delay runs the current piece and queue are untouched (so that
piece is never played); at the delay threshold the engine draws from
the queue again; and every draw pops one piece and pushes one, keeping
the upcoming queue at exactly 5 pieces. -/
theorem line_clear_consumes_two_queue_entries :
    (∀ (s : EngineState) (pf1 : Playfield) (p : Tetromino)
        (rest : List Tetromino),
      lockPiece s.playfield s.currentPiece = some pf1 →
      containsFullRows pf1 = some true →
      s.nextPieces = p :: rest →
      applyLock s = some
        { s with
          playfield := pf1,
          events := s.events ++
            [Event.lockEvent (TSpin.fromInternal s.currentTSpin)],
          currentTSpin := TSpinInternal.None,
          currentPiece := CurrentPiece.new p,
          nextPieces := rest ++ [s.gen s.genIdx],
          genIdx := s.genIdx + 1,
          isHoldAvailable := true,
          state := GameState.LineClear 1 }) ∧
    (∀ (s : EngineState) (n : Nat), s.state = GameState.LineClear n →
      n ≠ LINE_CLEAR_DELAY →
      (tickLineClear s).map (fun s2 => (s2.currentPiece, s2.nextPieces)) =
        some (s.currentPiece, s.nextPieces)) ∧
    (∀ (s : EngineState) (pf2 : Playfield) (k : Nat) (p : Tetromino)
        (rest : List Tetromino),
      s.state = GameState.LineClear LINE_CLEAR_DELAY →
      clearRows s.playfield = some (pf2, k) →
      s.nextPieces = p :: rest →
      (tickLineClear s).map (fun s2 => s2.currentPiece) =
        some (CurrentPiece.new p)) ∧
    (∀ (s s2 : EngineState), nextPiece s = some s2 →
      s.nextPieces.length = 5 → s2.nextPieces.length = 5) := by
  refine ⟨?_, ?_, ?_, ?_⟩
  · intro s pf1 p rest hlock hfull hq
    simp [applyLock, hlock, hfull, nextPiece, hq]
  · intro s n hs hne
    simp [tickLineClear, hs, hne]
  · intro s pf2 k p rest hs hclr hq
    simp [tickLineClear, hs, hclr, nextPiece, hq]
  · intro s s2 hnp hlen
    cases hq : s.nextPieces with
    | nil => simp [nextPiece, hq] at hnp
    | cons p rest =>
      simp only [nextPiece, hq, Option.some.injEq] at hnp
      rw [hq] at hlen
      simp only [List.length_cons] at hlen
      rw [← hnp]
      simp only [List.length_append, List.length_cons, List.length_nil]
      omega

/-- Witness for claim C10: locking the O piece that completes row 1
draws the I piece into play and enters `LineClear 1` with the queue
still holding five pieces. -/
theorem line_clear_queue_witness :
    applyLock engineAboutToClear = some
      { engineAboutToClear with
        playfield := (lockPiece pfAlmostRow
          engineAboutToClear.currentPiece).getD Playfield.new,
        events := [Event.lockEvent BaseEngine.TSpin.None],
        currentTSpin := TSpinInternal.None,
        currentPiece := CurrentPiece.new Tetromino.I,
        nextPieces := [Tetromino.O, Tetromino.T, Tetromino.S, Tetromino.Z,
          Tetromino.J],
        genIdx := 1,
        isHoldAvailable := true,
        state := GameState.LineClear 1 } ∧
      [Tetromino.O, Tetromino.T, Tetromino.S, Tetromino.Z,
        Tetromino.J].length = 5 :=
  ⟨line_clear_consumes_two_queue_entries.1 engineAboutToClear
      ((lockPiece pfAlmostRow engineAboutToClear.currentPiece).getD
        Playfield.new)
      Tetromino.I [Tetromino.O, Tetromino.T, Tetromino.S, Tetromino.Z]
      (by decide) (by decide) rfl,
   rfl⟩

end TetRs
